import Mathlib

/-!
Shallow embedding of the MOSDAC help-bot repository: the
intent-and-entity extractor (nlu_processor.py), the knowledge-graph
adapter (kg_manager.py), the dialogue engine (bot_logic.py) and the
static schema (config.py).  Pure Python functions become Lean
functions; the spaCy named-entity recognizer is an oracle parameter
(a list of recognized spans); the Neo4j store is an explicit value;
Python exceptions become `Except` results.
-/

/-- Containment of one character list in another, checked at every
starting position. -/
def infixCheck (needle : List Char) : List Char → Bool
  | [] => needle.isEmpty
  | c :: rest => needle.isPrefixOf (c :: rest) || infixCheck needle rest

/-- Python substring test `needle in hay` on strings. -/
def isSubstrOf (needle hay : String) : Bool :=
  infixCheck needle.data hay.data

/-- Python `str.lower()` (ASCII range, which covers every string the
program lowers), kept as structural recursion over the character list so
that it evaluates inside proofs. -/
def pyLower (s : String) : String :=
  String.mk (s.data.map Char.toLower)

/-- Python `str.startswith(pre)`. -/
def strStartsWith (s pre : String) : Bool :=
  pre.data.isPrefixOf s.data

/-- Python `str.replace` of underscores by spaces, as applied to
relationship-type and property names. -/
def underscoreToSpace (s : String) : String :=
  String.mk (s.data.map (fun c => if c = '_' then ' ' else c))

/-- Python `str.title()`: an alphabetic character is upper-cased when the
previous character is not alphabetic, and lower-cased otherwise. -/
def pyTitle (s : String) : String :=
  String.mk (s.data.foldl
    (fun (st : List Char × Bool) c =>
      if c.isAlpha then
        (st.1 ++ [if st.2 then c.toLower else c.toUpper], true)
      else
        (st.1 ++ [c], false))
    ([], false)).1

/-- Python f-string interpolation of a value that may be None. -/
def pyStr (o : Option String) : String := o.getD "None"

/-- Truthiness of a Python string: only the empty string is falsy. -/
def strTruthy (s : String) : Bool := !(s == "")

/-- Truthiness of an optional Python string: None and "" are falsy. -/
def optTruthy : Option String → Bool
  | none => false
  | some s => strTruthy s

/-- A Python dict with string keys and string values, as an
insertion-ordered association list whose keys are unique. -/
abbrev PyDict := List (String × String)

/-- Python `d[k] = v`: replaces the entry in place when the key is
present, appends a new entry otherwise. -/
def dictSet : PyDict → String → String → PyDict
  | [], k, v => [(k, v)]
  | p :: rest, k, v => if p.1 == k then (k, v) :: rest else p :: dictSet rest k v

/-- Python `d.get(k)` (also the test `k in d`, via `Option.isSome`). -/
def dictGet : PyDict → String → Option String
  | [], _ => none
  | p :: rest, k => if p.1 == k then some p.2 else dictGet rest k

/-- Python `d.values()`. -/
def dictValues (d : PyDict) : List String := d.map Prod.snd

/-! ## Static schema (config.py, KG_SCHEMA) -/

/-- KG_SCHEMA["nodes"]: the ten known entity kinds. -/
def kgNodes : List String :=
  ["DataProduct", "Satellite", "Sensor", "Parameter", "DataFormat",
   "ApplicationArea", "Service", "TimeResolution", "SpatialResolution",
   "Institution"]

/-- KG_SCHEMA["relationships"]: the ten known relationship kinds. -/
def kgRelationships : List String :=
  ["PROVIDES", "OBSERVED_BY", "FROM_SATELLITE", "USES_SENSOR",
   "AVAILABLE_IN_FORMAT", "APPLICABLE_FOR", "HAS_TIME_RESOLUTION",
   "HAS_SPATIAL_RESOLUTION", "OFFERS_SERVICE", "PRODUCED_BY"]

/-! ## Intent and entity extractor (nlu_processor.py) -/

/-- The spaCy NER labels retained by process_query. -/
def nerFilterLabels : List String := ["ORG", "PRODUCT", "LOC", "GPE", "NORP", "DATE"]

/-- The static keyword table self.mosdac_keywords, in insertion order
(Python 3.7+ dicts iterate in insertion order). -/
def mosdac_keywords : List (String × String) :=
  [("sea surface temperature", "DataProduct"),
   ("cloud top pressure", "DataProduct"),
   ("rainfall data", "DataProduct"),
   ("humidity data", "DataProduct"),
   ("wind speed", "DataProduct"),
   ("vegetation index", "DataProduct"),
   ("soil moisture", "DataProduct"),
   ("ozone concentration", "DataProduct"),
   ("aerosol optical depth", "DataProduct"),
   ("insat-3d", "Satellite"),
   ("insat-3dr", "Satellite"),
   ("kalpana-1", "Satellite"),
   ("oceansat-2", "Satellite"),
   ("megha-tropiques", "Satellite"),
   ("scatsat-1", "Satellite"),
   ("gisat-1", "Satellite"),
   ("imager", "Sensor"),
   ("sounder", "Sensor"),
   ("scatterometer", "Sensor"),
   ("temperature", "Parameter"),
   ("pressure", "Parameter"),
   ("wind", "Parameter"),
   ("humidity", "Parameter"),
   ("rainfall", "Parameter"),
   ("ozone", "Parameter"),
   ("aerosol", "Parameter"),
   ("netcdf", "DataFormat"),
   ("hdf", "DataFormat"),
   ("jpeg", "DataFormat"),
   ("geotiff", "DataFormat"),
   ("cyclone forecasting", "ApplicationArea"),
   ("weather forecasting", "ApplicationArea"),
   ("climate study", "ApplicationArea"),
   ("agricultural monitoring", "ApplicationArea"),
   ("oceanography", "ApplicationArea"),
   ("atmospheric research", "ApplicationArea"),
   ("data download", "Service"),
   ("visualization tool", "Service"),
   ("what data", "Query_DataProducts"),
   ("data on", "Query_DataProducts"),
   ("information about", "Query_Details"),
   ("details of", "Query_Details"),
   ("what is", "Query_Details_Object"),
   ("how to download", "Query_Download"),
   ("format of", "Query_Format"),
   ("time resolution", "Query_TimeResolution"),
   ("spatial resolution", "Query_SpatialResolution"),
   ("applications of", "Query_Applications"),
   ("what services", "Query_Services"),
   ("summarize", "Query_Summarize"),
   ("summarize this", "Query_Summarize"),
   ("make it concise", "Query_Summarize"),
   ("can you summarize", "Query_Summarize"),
   ("use cases", "Query_UseCases"),
   ("application ideas", "Query_UseCases"),
   ("how can I use this", "Query_UseCases")]

/-- One span produced by the external spaCy NER on the lower-cased text. -/
structure NerEnt where
  text : String
  label : String
deriving DecidableEq

/-- One candidate entity: the dicts appended to the `entities` list in
process_query, with `src` playing the role of the "type" key
("NER" or "Keyword"). -/
structure RawEnt where
  text : String
  label : String
  src : String
deriving DecidableEq

/-- The dict returned by process_query. -/
structure NLUResult where
  main_intent : String
  entities : PyDict
  raw_entities : List RawEnt
  keywords : List String
  found_relationships : List String
deriving DecidableEq

/-- The NER-sourced candidate entities (process_query first loop):
spans whose label is in the retained set, in order. -/
def nerEntsOf (ner : List NerEnt) : List RawEnt :=
  (ner.filter (fun e => nerFilterLabels.contains e.label)).map
    (fun e => ⟨e.text, e.label, "NER"⟩)

/-- The keyword-table entries whose key occurs in the lower-cased text
(process_query second loop); all entries are checked, in table order. -/
def kwHits (text : String) : List (String × String) :=
  mosdac_keywords.filter (fun p => isSubstrOf p.1 (pyLower text))

/-- The intent signals collected from keyword hits (labels with the
"Query_" prefix). -/
def firedIntents (text : String) : List String :=
  ((kwHits text).filter (fun p => strStartsWith p.2 "Query_")).map Prod.snd

/-- The keyword-sourced candidate entities (hits whose label is a known
entity kind). -/
def kwEnts (text : String) : List RawEnt :=
  ((kwHits text).filter
    (fun p => !(strStartsWith p.2 "Query_") && kgNodes.contains p.2)).map
    (fun p => ⟨p.1, p.2, "Keyword"⟩)

/-- The unclassified keywords (hits with neither a "Query_" prefix nor a
known entity-kind label). -/
def nluKeywords (text : String) : List String :=
  ((kwHits text).filter
    (fun p => !(strStartsWith p.2 "Query_") && !(kgNodes.contains p.2))).map Prod.fst

/-- The full candidate-entity list in construction order: NER spans
first (first loop), keyword hits after (second loop). -/
def rawEntsOf (ner : List NerEnt) (text : String) : List RawEnt :=
  nerEntsOf ner ++ kwEnts text

/-- found_relationships: relationship kinds whose lower-cased,
underscore-to-space name occurs literally in the lower-cased text. -/
def foundRelsOf (text : String) : List String :=
  kgRelationships.filter
    (fun r => isSubstrOf (underscoreToSpace (pyLower r)) (pyLower text))

/-- The main_intent resolution: the if/elif chain over intent signals,
followed by the upgrade of "general_query" to "get_details" when some
candidate entity has a known entity-kind label (the code also tests the
candidate's "type" field against the node kinds). -/
def resolveMainIntent (intents : List String) (ents : List RawEnt) : String :=
  if intents.contains "Query_Download" then "get_download_info"
  else if intents.contains "Query_Format" then "get_data_format"
  else if intents.contains "Query_TimeResolution" then "get_time_resolution"
  else if intents.contains "Query_SpatialResolution" then "get_spatial_resolution"
  else if intents.contains "Query_Applications" then "get_applications"
  else if intents.contains "Query_Services" then "get_services"
  else if intents.contains "Query_DataProducts" then "list_data_products"
  else if intents.contains "Query_Summarize" then "summarize_info"
  else if intents.contains "Query_UseCases" then "generate_use_cases"
  else if intents.contains "Query_Details" || intents.contains "Query_Details_Object" then "get_details"
  else if ents.any (fun e => kgNodes.contains e.label || kgNodes.contains e.src) then "get_details"
  else "general_query"

/-- One step of the deduplication loop building unique_entities:
a known-entity-kind label is always (re)assigned; a NER candidate whose
text is not yet a value is added unless some existing entry with a
known-entity-kind label has a value that is a substring of the
candidate's text. -/
def uniqueStep (acc : PyDict) (e : RawEnt) : PyDict :=
  if kgNodes.contains e.label then
    dictSet acc e.label e.text
  else if e.src == "NER" && !((dictValues acc).contains e.text) then
    if acc.any (fun p => isSubstrOf p.2 e.text && kgNodes.contains p.1) then
      acc
    else
      dictSet acc e.label e.text
  else
    acc

/-- The deduplication loop over the candidate-entity list. -/
def buildUnique (l : List RawEnt) (acc : PyDict) : PyDict := l.foldl uniqueStep acc

/-- NLUProcessor.process_query.  `ner` stands for the spans the external
spaCy model finds in the lower-cased text. -/
def process_query (ner : List NerEnt) (text : String) : NLUResult :=
  { main_intent := resolveMainIntent (firedIntents text) (rawEntsOf ner text)
    entities := buildUnique (rawEntsOf ner text) []
    raw_entities := rawEntsOf ner text
    keywords := nluKeywords text
    found_relationships := foundRelsOf text }

/-! ## Knowledge store (kg_manager.py over an abstract property graph)

The store is a property graph: a list of labelled nodes with property
maps and a list of typed edges between node indices.  Query rows are
enumerated in store order (the engine's unspecified order). -/

/-- One graph node: a single label and a property map. -/
structure KGNode where
  label : String
  props : PyDict
deriving DecidableEq, Inhabited

/-- One graph relationship between node indices. -/
structure KGRel where
  fromIdx : Nat
  toIdx : Nat
  rtype : String
  rprops : PyDict
deriving DecidableEq

/-- The graph reachable behind the Neo4j driver. -/
structure KGStore where
  nodes : List KGNode
  rels : List KGRel
deriving DecidableEq

/-- Total node access (queries only produce indices of existing nodes). -/
def nodeAt (l : List KGNode) (i : Nat) : KGNode :=
  (l.get? i).getD default

/-- One record of the COLLECT(DISTINCT {type, target_name, target_label,
relationship_props}) map in get_entity_details; every field is nullable
because the OPTIONAL MATCH can leave the row without a relationship. -/
structure RelInfo where
  rtype : Option String
  target_name : Option String
  target_label : Option String
  rel_props : Option PyDict
deriving DecidableEq

/-- The record contributed by relationship `r` when it is incident to
node `i` (the pattern `(n)-[r]-(m)` is undirected). -/
def relInfoOf (s : KGStore) (i : Nat) (r : KGRel) : Option RelInfo :=
  if r.fromIdx == i then
    some ⟨some r.rtype, dictGet (nodeAt s.nodes r.toIdx).props "name",
          some (nodeAt s.nodes r.toIdx).label, some r.rprops⟩
  else if r.toIdx == i then
    some ⟨some r.rtype, dictGet (nodeAt s.nodes r.fromIdx).props "name",
          some (nodeAt s.nodes r.fromIdx).label, some r.rprops⟩
  else none

/-- COLLECT(DISTINCT ...): duplicate records are collapsed, first
occurrence kept. -/
def dedupKeepFirst (l : List RelInfo) : List RelInfo :=
  l.foldl (fun acc a => if acc.contains a then acc else acc ++ [a]) []

/-- The collected relationship records for node `i`.  When the node has
no incident relationship the OPTIONAL MATCH leaves a single row with a
null relationship, so the collected list is one all-null record. -/
def collectRels (s : KGStore) (i : Nat) : List RelInfo :=
  let incident := dedupKeepFirst (s.rels.filterMap (relInfoOf s i))
  if incident.isEmpty then [⟨none, none, none, none⟩] else incident

/-- The WHERE clause of get_entity_details:
`toLower(n.name) CONTAINS toLower($entity_name)`.  A node without a
`name` property never matches (CONTAINS on null is null). -/
def nameMatches (q : String) (n : KGNode) : Bool :=
  match dictGet n.props "name" with
  | some nm => isSubstrOf (pyLower q) (pyLower nm)
  | none => false

/-- Index of the first matching node (the row kept by LIMIT 1). -/
def findEntityIdx (q : String) : List KGNode → Nat → Option Nat
  | [], _ => none
  | n :: rest, i => if nameMatches q n then some i else findEntityIdx q rest (i + 1)

/-- The dict returned by get_entity_details: the matched node's
properties plus the collected relationship records. -/
structure EntityDetails where
  node : PyDict
  relationships : List RelInfo
deriving DecidableEq

/-- KnowledgeGraphManager.get_entity_details.  When a (truthy) label is
passed, the f-string `f"(n:{{label}})"` in the source leaves the literal
text `(n:{label})` in the query (the doubled braces are an escape, not an
interpolation), and a label cannot be a Cypher parameter: on the Neo4j
4.x/5.x servers the repository targets, session.run raises a syntax
error, `_execute_query` catches every exception and returns `[]`, and
the method returns None.  Without a label the query matches any node
whose lowered name contains the lowered query string and returns the
first row. -/
def get_entity_details (s : KGStore) (entity_name : String)
    (entity_label : Option String) : Option EntityDetails :=
  if optTruthy entity_label then
    none
  else
    match findEntityIdx entity_name s.nodes 0 with
    | some i => some ⟨(nodeAt s.nodes i).props, collectRels s i⟩
    | none => none

/-- One row of get_related_entities. -/
structure RelatedEnt where
  name : Option String
  label : String
  rtype : String
deriving DecidableEq

/-- KnowledgeGraphManager.get_related_entities: outgoing relationships
from a node of the given label whose lowered name contains the lowered
query; the relationship type is constrained when given, and the target
label only when the relationship type also is (the source ignores
`target_label` otherwise). -/
def get_related_entities (s : KGStore) (entity_name : String)
    (entity_label : String) (relationship_type : Option String)
    (target_label : Option String) : List RelatedEnt :=
  s.rels.filterMap (fun r =>
    match s.nodes.get? r.fromIdx, s.nodes.get? r.toIdx with
    | some e, some t =>
      if e.label == entity_label
          && nameMatches entity_name e
          && (if optTruthy relationship_type then
                r.rtype == relationship_type.getD ""
                  && (if optTruthy target_label then t.label == target_label.getD "" else true)
              else true) then
        some ⟨dictGet t.props "name", t.label, r.rtype⟩
      else none
    | _, _ => none)

/-- The raw query issued by the list_data_products branch:
`MATCH (p:DataProduct) RETURN p.name AS name, p.description AS description LIMIT 5`. -/
def listDataProducts (s : KGStore) : List (Option String × Option String) :=
  ((s.nodes.filter (fun n => n.label == "DataProduct")).map
    (fun n => (dictGet n.props "name", dictGet n.props "description"))).take 5

/-! ## Dialogue engine (bot_logic.py) -/

/-- A Python exception escaping a modelled function. -/
inductive PyErr
  | attributeError
  | typeError
  | keyError
deriving DecidableEq

/-- Outcome of the HTTP exchange the augmentation client would perform:
timeout / connection failure / non-2xx status (all requests.RequestException),
a non-JSON body, a JSON body without the expected fields, or a
well-formed reply carrying generated text. -/
inductive NetOutcome
  | netFail
  | badJson
  | missingFields
  | okText (text : String)
deriving DecidableEq

/-- The apology returned for any requests.RequestException. -/
def connectivityApology : String :=
  "I'm having trouble connecting to the generative AI right now. Please try again later."

/-- The apology returned when the reply lacks the expected fields. -/
def unexpectedFormatApology : String :=
  "I couldn't generate a response from the AI at this moment."

/-- The apology returned by the catch-all handler. -/
def internalErrorApology : String :=
  "An internal error occurred while processing your request."

/-- The try-block of _call_gemini_llm: what the client returns once the
request is actually issued; every failure is mapped to an apology
string. -/
def gemini_try (net : NetOutcome) : String :=
  match net with
  | .netFail => connectivityApology
  | .badJson => internalErrorApology
  | .missingFields => unexpectedFormatApology
  | .okText t => t

/-- The list methods the client's code needs. -/
inductive PyListMethod
  | append
deriving DecidableEq

/-- Attribute lookup on a Python `list` object, restricted to the
relevant names: `append` exists, `push` does not (a JavaScript habit). -/
def pyListAttr (attr : String) : Option PyListMethod :=
  if attr == "append" then some PyListMethod.append else none

/-- ISROBot._call_gemini_llm.  The body runs `chat_history = []` and then
`chat_history.push({...})` before the try-block; the attribute lookup of
`push` on the list fails, so an AttributeError is raised to the caller
and the try-block (and its apology-string handlers) is never reached. -/
def call_gemini_llm (_prompt : String) (net : NetOutcome) : Except PyErr String :=
  match pyListAttr "push" with
  | some _ => Except.ok (gemini_try net)
  | none => Except.error PyErr.attributeError

/-- The conversational-memory slot: last_detailed_response_content and
last_detailed_entity_name. -/
structure MemSlot where
  content : Option String
  name : Option String
deriving DecidableEq

instance : DecidableEq (Except PyErr String) := fun a b =>
  match a, b with
  | Except.ok x, Except.ok y =>
    if h : x = y then Decidable.isTrue (by rw [h]) else Decidable.isFalse (by simp [h])
  | Except.error x, Except.error y =>
    if h : x = y then Decidable.isTrue (by rw [h]) else Decidable.isFalse (by simp [h])
  | Except.ok _, Except.error _ => Decidable.isFalse (by simp)
  | Except.error _, Except.ok _ => Decidable.isFalse (by simp)

/-- Observable outcome of one generate_response call: the returned text
(or the Python exception that escaped), the final memory slot, and the
number of knowledge-store and augmentation-client calls issued. -/
structure GenOut where
  result : Except PyErr String
  mem : MemSlot
  kgCalls : Nat
  llmCalls : Nat
deriving DecidableEq

/-- The static last-resort response text. -/
def defaultFallback : String :=
  "I'm sorry, I couldn't find information on that. Could you please rephrase or ask about specific MOSDAC data products, satellites, or services?"

/-- The nested helper find_primary_entity: first preferred label present
in the dict wins; otherwise the first dict entry whose label is a known
entity kind; otherwise (None, None). -/
def find_primary_entity (entities : PyDict) (preferred : List String) :
    Option (String × String) :=
  match preferred.find? (fun l => (dictGet entities l).isSome) with
  | some l =>
    match dictGet entities l with
    | some n => some (n, l)
    | none => none
  | none =>
    (entities.find? (fun p => kgNodes.contains p.1)).map (fun p => (p.2, p.1))

/-- A list of possibly-None values fails to be all strings when any
element is None. -/
def seqStrings : List (Option String) → Option (List String)
  | [] => some []
  | none :: _ => none
  | some s :: rest => (seqStrings rest).map (fun l => s :: l)

/-- Python `sep.join(items)` over items that may be None: a None item
raises TypeError. -/
def pyJoin (sep : String) (items : List (Option String)) : Except PyErr String :=
  match seqStrings items with
  | some l => Except.ok (String.intercalate sep l)
  | none => Except.error PyErr.typeError

/-- The property lines of the get_details response (every property other
than name and description, rendered as `- Title: value`). -/
def propLines (node : PyDict) : List String :=
  (node.filter (fun p => !(p.1 == "name") && !(p.1 == "description"))).map
    (fun p => "- " ++ pyTitle (underscoreToSpace p.1) ++ ": " ++ p.2)

/-- One line of the Related Information block.  The templated kinds
interpolate the target name (None renders as "None"); PROVIDES and
APPLICABLE_FOR call .lower() on it and the generic template calls
.replace on the type, so a null value raises AttributeError there. -/
def renderRel (r : RelInfo) : Except PyErr String :=
  match r.rtype with
  | some "FROM_SATELLITE" =>
    Except.ok ("  - It is derived from the " ++ pyStr r.target_name ++ " satellite.")
  | some "PROVIDES" =>
    match r.target_name with
    | some tn => Except.ok ("  - It provides data on " ++ pyLower tn ++ ".")
    | none => Except.error PyErr.attributeError
  | some "AVAILABLE_IN_FORMAT" =>
    Except.ok ("  - It is available in " ++ pyStr r.target_name ++ " format.")
  | some "APPLICABLE_FOR" =>
    match r.target_name with
    | some tn => Except.ok ("  - It is applicable for " ++ pyLower tn ++ ".")
    | none => Except.error PyErr.attributeError
  | some "USES_SENSOR" =>
    Except.ok ("  - It uses the " ++ pyStr r.target_name ++ " sensor.")
  | some "PRODUCED_BY" =>
    Except.ok ("  - It is produced by " ++ pyStr r.target_name ++ ".")
  | some other =>
    Except.ok ("  - Related to " ++ pyStr r.target_name ++ " (" ++ pyStr r.target_label
      ++ ") via " ++ pyLower (underscoreToSpace other) ++ ".")
  | none => Except.error PyErr.attributeError

/-- The Related Information loop, aborting at the first exception. -/
def renderRels : List RelInfo → Except PyErr (List String)
  | [] => Except.ok []
  | r :: rest =>
    match renderRel r with
    | Except.error e => Except.error e
    | Except.ok s =>
      match renderRels rest with
      | Except.error e => Except.error e
      | Except.ok l => Except.ok (s :: l)

/-- The intent dispatch of generate_response, with the already-computed
intent and entity mapping.  Each branch reports the returned text or the
escaping exception, the final memory slot, and the number of store and
augmentation-client calls. -/
def dispatch (mem : MemSlot) (store : KGStore) (net : NetOutcome)
    (intent : String) (entities : PyDict) : GenOut :=
  if intent == "get_details" then
    match find_primary_entity entities
        ["DataProduct", "Satellite", "Sensor", "Parameter", "ApplicationArea",
         "Service", "Institution"] with
    | some (pname, plabel) =>
      if strTruthy pname then
        match get_entity_details store pname (some plabel) with
        | some d =>
          let dispName := (dictGet d.node "name").getD pname
          let descOpt := dictGet d.node "description"
          let newMem : MemSlot :=
            if optTruthy descOpt then ⟨descOpt, some dispName⟩ else ⟨none, none⟩
          match renderRels d.relationships with
          | Except.error e => ⟨Except.error e, newMem, 1, 0⟩
          | Except.ok relLines =>
            let parts := ("Here's what I know about " ++ dispName ++ ":")
              :: (if optTruthy descOpt then ["- Description: " ++ descOpt.getD ""] else [])
              ++ propLines d.node
              ++ (if d.relationships.isEmpty then [] else "\nRelated Information:" :: relLines)
            let text :=
              if optTruthy newMem.content then
                String.intercalate "\n" parts
                  ++ "\n\n\u2728 Would you like me to summarize this, or generate use case ideas for this data?"
              else String.intercalate "\n" parts
            ⟨Except.ok text, newMem, 1, 0⟩
        | none =>
          ⟨Except.ok ("I couldn't find detailed information about '" ++ pname
            ++ "'. It might not be in my knowledge base yet."), ⟨none, none⟩, 1, 0⟩
      else
        ⟨Except.ok "Please specify which MOSDAC data product, satellite, or service you'd like to know about.",
         ⟨none, none⟩, 0, 0⟩
    | none =>
      ⟨Except.ok "Please specify which MOSDAC data product, satellite, or service you'd like to know about.",
       ⟨none, none⟩, 0, 0⟩
  else if intent == "list_data_products" then
    if (listDataProducts store).isEmpty then
      ⟨Except.ok "I couldn't find a list of data products. The knowledge graph might be empty or the query needs refinement.",
       ⟨none, none⟩, 1, 0⟩
    else
      ⟨Except.ok ("MOSDAC provides various data products, including:\n"
        ++ String.join ((listDataProducts store).map (fun p => "- " ++ pyStr p.1 ++ "\n"))
        ++ "You can ask for more details about a specific product, e.g., 'Tell me about sea surface temperature data'."),
       ⟨none, none⟩, 1, 0⟩
  else if intent == "get_data_format" then
    match find_primary_entity entities ["DataProduct"] with
    | some (pname, plabel) =>
      if strTruthy pname then
        if (get_related_entities store pname plabel
            (some "AVAILABLE_IN_FORMAT") (some "DataFormat")).isEmpty then
          ⟨Except.ok ("I don't have information on the specific data format for " ++ pname ++ "."),
           ⟨none, none⟩, 1, 0⟩
        else
          match pyJoin ", " ((get_related_entities store pname plabel
              (some "AVAILABLE_IN_FORMAT") (some "DataFormat")).map (fun f => f.name)) with
          | Except.error e => ⟨Except.error e, mem, 1, 0⟩
          | Except.ok names =>
            ⟨Except.ok ("The data for " ++ pname
              ++ " is typically available in the following formats: " ++ names ++ "."),
             ⟨none, none⟩, 1, 0⟩
      else
        ⟨Except.ok "Please specify which data product's format you are interested in.",
         ⟨none, none⟩, 0, 0⟩
    | none =>
      ⟨Except.ok "Please specify which data product's format you are interested in.",
       ⟨none, none⟩, 0, 0⟩
  else if intent == "get_download_info" then
    match find_primary_entity entities ["DataProduct", "Parameter"] with
    | some (pname, plabel) =>
      if strTruthy pname then
        match get_entity_details store pname (some plabel) with
        | some d =>
          match dictGet d.node "link" with
          | some link =>
            match dictGet d.node "name" with
            | some nm =>
              ⟨Except.ok ("You can usually download data for " ++ nm ++ " from this link: "
                ++ link ++ ". Please visit the MOSDAC website for specific download procedures."),
               ⟨none, none⟩, 1, 0⟩
            | none => ⟨Except.error PyErr.keyError, mem, 1, 0⟩
          | none =>
            ⟨Except.ok ("I don't have direct download links for " ++ pname
              ++ ". Please visit the MOSDAC website (mosdac.gov.in) and navigate to the data products section to find download options."),
             ⟨none, none⟩, 1, 0⟩
        | none =>
          ⟨Except.ok ("I don't have direct download links for " ++ pname
            ++ ". Please visit the MOSDAC website (mosdac.gov.in) and navigate to the data products section to find download options."),
           ⟨none, none⟩, 1, 0⟩
      else
        ⟨Except.ok "Please specify which data product you'd like download information for.",
         ⟨none, none⟩, 0, 0⟩
    | none =>
      ⟨Except.ok "Please specify which data product you'd like download information for.",
       ⟨none, none⟩, 0, 0⟩
  else if intent == "get_applications" then
    match find_primary_entity entities ["DataProduct", "Parameter", "Satellite"] with
    | some (pname, plabel) =>
      if strTruthy pname then
        if (get_related_entities store pname plabel
            (some "APPLICABLE_FOR") (some "ApplicationArea")).isEmpty then
          ⟨Except.ok ("I don't have specific application information for " ++ pname
            ++ " in my knowledge base."), ⟨none, none⟩, 1, 0⟩
        else
          match pyJoin ", " ((get_related_entities store pname plabel
              (some "APPLICABLE_FOR") (some "ApplicationArea")).map (fun a => a.name)) with
          | Except.error e => ⟨Except.error e, mem, 1, 0⟩
          | Except.ok names =>
            ⟨Except.ok ("The data/satellite '" ++ pname
              ++ "' is applicable for areas such as: " ++ names ++ "."),
             ⟨none, none⟩, 1, 0⟩
      else
        ⟨Except.ok "Please tell me which data product or satellite you'd like to know applications for.",
         ⟨none, none⟩, 0, 0⟩
    | none =>
      ⟨Except.ok "Please tell me which data product or satellite you'd like to know applications for.",
       ⟨none, none⟩, 0, 0⟩
  else if intent == "get_services" then
    if (get_related_entities store ((dictGet entities "Institution").getD "MOSDAC")
        "Institution" (some "OFFERS_SERVICE") (some "Service")).isEmpty then
      ⟨Except.ok ("I couldn't find specific service information for "
        ++ (dictGet entities "Institution").getD "MOSDAC" ++ "."), ⟨none, none⟩, 1, 0⟩
    else
      match pyJoin ", " ((get_related_entities store
          ((dictGet entities "Institution").getD "MOSDAC") "Institution"
          (some "OFFERS_SERVICE") (some "Service")).map (fun s => s.name)) with
      | Except.error e => ⟨Except.error e, mem, 1, 0⟩
      | Except.ok names =>
        ⟨Except.ok ((dictGet entities "Institution").getD "MOSDAC" ++ " offers services like: "
          ++ names ++ ". You can often find visualization tools or data download portals."),
         ⟨none, none⟩, 1, 0⟩
  else if intent == "summarize_info" then
    if optTruthy mem.content then
      match call_gemini_llm ("Summarize the following information about " ++ pyStr mem.name
          ++ " concisely in a paragraph:\n\n" ++ (mem.content.getD "")) net with
      | Except.error e => ⟨Except.error e, mem, 0, 1⟩
      | Except.ok llm_summary =>
        ⟨Except.ok ("\u2728 Here's a summary of the previous information about "
          ++ pyStr mem.name ++ ":\n" ++ llm_summary), ⟨none, none⟩, 0, 1⟩
    else
      ⟨Except.ok "I don't have a recent detailed piece of information to summarize. Please ask me about a specific data product or satellite first.",
       ⟨none, none⟩, 0, 0⟩
  else if intent == "generate_use_cases" then
    match find_primary_entity entities
        ["DataProduct", "Satellite", "Parameter", "ApplicationArea"] with
    | some (pname, plabel) =>
      if strTruthy pname then
        match call_gemini_llm ("Generate 3-5 creative and practical use case ideas for '" ++ pname
            ++ "' (which is " ++ pyLower plabel ++ "), considering its nature as "
            ++ (match get_entity_details store pname (some plabel) with
                | some d =>
                  match dictGet d.node "description" with
                  | some dsc => if strTruthy dsc then dsc else "data related to " ++ pname
                  | none => "data related to " ++ pname
                | none => "data related to " ++ pname)
            ++ ". Focus on meteorological, oceanographic, or environmental applications. Provide them as a bulleted list.") net with
        | Except.error e => ⟨Except.error e, mem, 1, 1⟩
        | Except.ok llm_use_cases =>
          ⟨Except.ok ("\u2728 Here are some use case ideas for " ++ pname ++ ":\n" ++ llm_use_cases),
           ⟨none, none⟩, 1, 1⟩
      else
        ⟨Except.ok "Please specify which data product, satellite, or parameter you'd like use case ideas for.",
         ⟨none, none⟩, 0, 0⟩
    | none =>
      ⟨Except.ok "Please specify which data product, satellite, or parameter you'd like use case ideas for.",
       ⟨none, none⟩, 0, 0⟩
  else
    ⟨Except.ok defaultFallback, mem, 0, 0⟩

/-- ISROBot.generate_response: run the extractor, then dispatch on the
resolved intent. -/
def generate_response (mem : MemSlot) (store : KGStore) (ner : List NerEnt)
    (net : NetOutcome) (user_query : String) : GenOut :=
  dispatch mem store net (process_query ner user_query).main_intent
    (process_query ner user_query).entities

/-- The intents generate_response has a branch for; the NLU can also
produce general_query, get_time_resolution and get_spatial_resolution,
which fall through to the static fallback. -/
def handledIntents : List String :=
  ["get_details", "list_data_products", "get_data_format", "get_download_info",
   "get_applications", "get_services", "summarize_info", "generate_use_cases"]

/-- The store used in concrete scenarios: a single DataProduct named
"Rainfall Data" with a description. -/
def rainfallStore : KGStore :=
  ⟨[⟨"DataProduct",
     [("name", "Rainfall Data"),
      ("description", "Gridded rainfall data derived from INSAT satellites.")]⟩], []⟩

/-! ## Statements taken from the specification's words, to be compared
with the source embedding (refinement claims C6 and C7). -/

/-- From the spec: the fixed intent priority order, each slot with the
signal(s) that select it (download, format, time-resolution,
spatial-resolution, applications, services, list-products, summarize,
use-cases, details). -/
def intentPriority : List (List String × String) :=
  [(["Query_Download"], "get_download_info"),
   (["Query_Format"], "get_data_format"),
   (["Query_TimeResolution"], "get_time_resolution"),
   (["Query_SpatialResolution"], "get_spatial_resolution"),
   (["Query_Applications"], "get_applications"),
   (["Query_Services"], "get_services"),
   (["Query_DataProducts"], "list_data_products"),
   (["Query_Summarize"], "summarize_info"),
   (["Query_UseCases"], "generate_use_cases"),
   (["Query_Details", "Query_Details_Object"], "get_details")]

/-- The first priority slot one of whose signals fired. -/
def firstPresent (fired : List String) : List (List String × String) → Option String
  | [] => none
  | g :: rest =>
    if g.1.any (fun s => fired.contains s) then some g.2 else firstPresent fired rest

/-- From the spec (section 4.1 step 4): the first signal present in the
priority order wins; with no signal the intent defaults to
general_query, upgraded to get_details exactly when some extracted
entity's label is a known entity kind. -/
def resolveMainIntentSpec (fired : List String) (ents : List RawEnt) : String :=
  match firstPresent fired intentPriority with
  | some i => i
  | none =>
    if ents.any (fun e => kgNodes.contains e.label) then "get_details"
    else "general_query"

/-- From the spec/claim: the text of the last-scanned entity with the
given label ("the last one scanned wins"). -/
def lastWith : List RawEnt → String → Option String
  | [], _ => none
  | e :: rest, l =>
    match lastWith rest l with
    | some t => some t
    | none => if e.label == l then some e.text else none

/-- The deduplication step without the anti-overlap test: a NER candidate is
added whenever its text is not already a value.  (The claim's substring
condition is shown to change nothing: the overlap test never fires.) -/
def simpleStep (acc : PyDict) (e : RawEnt) : PyDict :=
  if kgNodes.contains e.label then dictSet acc e.label e.text
  else if e.src == "NER" && !((dictValues acc).contains e.text) then dictSet acc e.label e.text
  else acc

/-- The deduplication loop built from `simpleStep`. -/
def buildUniqueSimple (l : List RawEnt) (acc : PyDict) : PyDict := l.foldl simpleStep acc

/-! ## Auxiliary lemmas: dict operations -/

theorem dictGet_dictSet (d : PyDict) (k v l : String) :
    dictGet (dictSet d k v) l = if l = k then some v else dictGet d l := by
  induction d with
  | nil =>
    by_cases h : l = k
    · subst h; simp [dictSet, dictGet]
    · have hkl : ¬ k = l := fun hh => h hh.symm
      simp [dictSet, dictGet, h, hkl]
  | cons p rest ih =>
    by_cases hpk : p.1 = k
    · by_cases hlk : l = k
      · subst hlk; simp [dictSet, dictGet, hpk]
      · have hkl : ¬ k = l := fun hh => hlk hh.symm
        have hpl : ¬ p.1 = l := fun hh => hlk (hpk.symm.trans hh).symm
        simp [dictSet, dictGet, hpk, hlk, hkl, hpl]
    · by_cases hpl : p.1 = l
      · have hlk : ¬ l = k := fun hh => hpk (hpl.trans hh)
        simp [dictSet, dictGet, hpk, hpl, hlk]
      · simp [dictSet, dictGet, hpk, hpl, ih]

theorem mem_keys_dictSet (d : PyDict) (k v a : String) :
    a ∈ (dictSet d k v).map Prod.fst ↔ a ∈ d.map Prod.fst ∨ a = k := by
  induction d with
  | nil => simp [dictSet]
  | cons p rest ih =>
    by_cases hpk : p.1 = k
    · simp [dictSet, hpk]; tauto
    · simp [dictSet, hpk, ih]; tauto

theorem nodup_keys_dictSet (d : PyDict) (k v : String)
    (h : (d.map Prod.fst).Nodup) : ((dictSet d k v).map Prod.fst).Nodup := by
  induction d with
  | nil => simp [dictSet]
  | cons p rest ih =>
    simp only [List.map_cons, List.nodup_cons] at h
    by_cases hpk : p.1 = k
    · simp only [dictSet, beq_iff_eq, hpk, if_true, List.map_cons, List.nodup_cons]
      exact ⟨hpk ▸ h.1, h.2⟩
    · simp only [dictSet, beq_iff_eq, hpk, if_false, List.map_cons, List.nodup_cons]
      refine ⟨fun hmem => ?_, ih h.2⟩
      rcases (mem_keys_dictSet rest k v p.1).mp hmem with h1 | h1
      · exact h.1 h1
      · exact hpk h1

/-! ## Auxiliary lemmas: the extractor -/

theorem contains_false_iff (l : List String) (a : String) :
    l.contains a = false ↔ a ∉ l := by
  constructor
  · intro h hm
    have h2 : l.contains a = true := List.elem_iff.mpr hm
    rw [h] at h2
    exact Bool.noConfusion h2
  · intro h
    cases hc : l.contains a
    · rfl
    · exact absurd (List.elem_iff.mp hc) h

theorem mem_dictSet (d : PyDict) (k v : String) (p : String × String)
    (h : p ∈ dictSet d k v) : p ∈ d ∨ p = (k, v) := by
  induction d with
  | nil => simp [dictSet] at h; simp [h]
  | cons q rest ih =>
    by_cases hqk : q.1 = k
    · simp [dictSet, hqk] at h
      rcases h with h | h
      · right; simp [h]
      · left; simp [h]
    · simp [dictSet, hqk] at h
      rcases h with h | h
      · left; simp [h]
      · rcases ih h with h1 | h1
        · left; simp [h1]
        · right; exact h1

theorem uniqueStep_cases (acc : PyDict) (e : RawEnt) :
    uniqueStep acc e = acc ∨ uniqueStep acc e = dictSet acc e.label e.text := by
  unfold uniqueStep
  split_ifs <;> simp

theorem nodup_keys_buildUnique (l : List RawEnt) (acc : PyDict)
    (h : (acc.map Prod.fst).Nodup) : ((buildUnique l acc).map Prod.fst).Nodup := by
  induction l generalizing acc with
  | nil => exact h
  | cons e rest ih =>
    refine ih (uniqueStep acc e) ?_
    rcases uniqueStep_cases acc e with hc | hc <;> rw [hc]
    · exact h
    · exact nodup_keys_dictSet acc e.label e.text h

theorem ner_label_not_node (l : String) (h : nerFilterLabels.contains l = true) :
    kgNodes.contains l = false := by
  have hm : l ∈ nerFilterLabels := List.elem_iff.mp h
  fin_cases hm <;> decide

theorem mem_nerEntsOf (ner : List NerEnt) (e : RawEnt) (h : e ∈ nerEntsOf ner) :
    e.src = "NER" ∧ nerFilterLabels.contains e.label = true := by
  obtain ⟨x, hx, rfl⟩ := List.mem_map.mp h
  exact ⟨rfl, (List.mem_filter.mp hx).2⟩

theorem mem_kwEnts (text : String) (e : RawEnt) (h : e ∈ kwEnts text) :
    e.src = "Keyword" ∧ kgNodes.contains e.label = true := by
  obtain ⟨p, hp, rfl⟩ := List.mem_map.mp h
  have hb := (List.mem_filter.mp hp).2
  simp only [Bool.and_eq_true] at hb
  exact ⟨rfl, hb.2⟩

theorem dictGet_buildUnique_kw (kws : List RawEnt) (acc : PyDict) (l : String)
    (h : ∀ e ∈ kws, kgNodes.contains e.label = true) :
    dictGet (buildUnique kws acc) l =
      match lastWith kws l with
      | some t => some t
      | none => dictGet acc l := by
  induction kws generalizing acc with
  | nil => simp [buildUnique, lastWith]
  | cons e rest ih =>
    have he : kgNodes.contains e.label = true := h e (List.mem_cons_self e rest)
    have hrest : ∀ x ∈ rest, kgNodes.contains x.label = true :=
      fun x hx => h x (List.mem_cons_of_mem e hx)
    have hstep : uniqueStep acc e = dictSet acc e.label e.text := by
      unfold uniqueStep
      rw [if_pos he]
    rw [show buildUnique (e :: rest) acc = buildUnique rest (uniqueStep acc e) from rfl,
      ih (uniqueStep acc e) hrest, hstep]
    cases hl : lastWith rest l with
    | some t => simp [lastWith, hl]
    | none =>
      simp only [lastWith, hl]
      by_cases hel : e.label = l
      · simp [dictGet_dictSet, hel]
      · have hle : ¬ l = e.label := fun hh => hel hh.symm
        simp [dictGet_dictSet, hel, hle]

theorem dictGet_buildUnique_notNode (ents : List RawEnt) (acc : PyDict) (l : String)
    (hl : kgNodes.contains l = true)
    (h : ∀ e ∈ ents, kgNodes.contains e.label = false) :
    dictGet (buildUnique ents acc) l = dictGet acc l := by
  induction ents generalizing acc with
  | nil => rfl
  | cons e rest ih =>
    have he := h e (List.mem_cons_self e rest)
    have hrest : ∀ x ∈ rest, kgNodes.contains x.label = false :=
      fun x hx => h x (List.mem_cons_of_mem e hx)
    rw [show buildUnique (e :: rest) acc = buildUnique rest (uniqueStep acc e) from rfl,
      ih (uniqueStep acc e) hrest]
    have hne : ¬ l = e.label := by
      intro hh; rw [hh, he] at hl; exact Bool.noConfusion hl
    rcases uniqueStep_cases acc e with hc | hc <;> rw [hc]
    rw [dictGet_dictSet, if_neg hne]

theorem buildUnique_prefix_eq (ents : List RawEnt) (acc : PyDict)
    (hents : ∀ e ∈ ents, kgNodes.contains e.label = false)
    (hacc : ∀ p ∈ acc, kgNodes.contains p.1 = false) :
    buildUnique ents acc = buildUniqueSimple ents acc
      ∧ ∀ p ∈ buildUnique ents acc, kgNodes.contains p.1 = false := by
  induction ents generalizing acc with
  | nil => exact ⟨rfl, hacc⟩
  | cons e rest ih =>
    have he := hents e (List.mem_cons_self e rest)
    have hrest : ∀ x ∈ rest, kgNodes.contains x.label = false :=
      fun x hx => hents x (List.mem_cons_of_mem e hx)
    have hov : (acc.any fun p => isSubstrOf p.2 e.text && kgNodes.contains p.1) = false := by
      rw [List.any_eq_false]
      intro p hp
      rw [hacc p hp]
      simp
    have hstep : uniqueStep acc e = simpleStep acc e := by
      unfold uniqueStep simpleStep
      rw [if_neg (ne_true_of_eq_false he)]
      conv_rhs => rw [if_neg (ne_true_of_eq_false he)]
      by_cases h2 : (e.src == "NER" && !((dictValues acc).contains e.text)) = true
      · rw [if_pos h2]
        conv_rhs => rw [if_pos h2]
        rw [if_neg (ne_true_of_eq_false hov)]
      · rw [if_neg h2]
        conv_rhs => rw [if_neg h2]
    have hkeys : ∀ p ∈ uniqueStep acc e, kgNodes.contains p.1 = false := by
      intro p hp
      rcases uniqueStep_cases acc e with hc | hc <;> rw [hc] at hp
      · exact hacc p hp
      · rcases mem_dictSet acc e.label e.text p hp with h1 | h1
        · exact hacc p h1
        · rw [h1]; exact he
    obtain ⟨ih1, ih2⟩ := ih (uniqueStep acc e) hrest hkeys
    refine ⟨?_, ih2⟩
    show buildUnique rest (uniqueStep acc e) = buildUniqueSimple rest (simpleStep acc e)
    rw [← hstep]; exact ih1

theorem buildUnique_kw_eq_simple (kws : List RawEnt) (acc : PyDict)
    (h : ∀ e ∈ kws, kgNodes.contains e.label = true) :
    buildUnique kws acc = buildUniqueSimple kws acc := by
  induction kws generalizing acc with
  | nil => rfl
  | cons e rest ih =>
    have he := h e (List.mem_cons_self e rest)
    have hstep : uniqueStep acc e = simpleStep acc e := by
      unfold uniqueStep simpleStep
      rw [if_pos he]
      conv_rhs => rw [if_pos he]
    show buildUnique rest (uniqueStep acc e) = buildUniqueSimple rest (simpleStep acc e)
    rw [← hstep]
    exact ih _ (fun x hx => h x (List.mem_cons_of_mem e hx))

theorem buildUnique_eq_simple (ner : List NerEnt) (text : String) :
    buildUnique (rawEntsOf ner text) [] = buildUniqueSimple (rawEntsOf ner text) [] := by
  have hn : ∀ e ∈ nerEntsOf ner, kgNodes.contains e.label = false :=
    fun e he => ner_label_not_node e.label (mem_nerEntsOf ner e he).2
  have hk : ∀ e ∈ kwEnts text, kgNodes.contains e.label = true :=
    fun e he => (mem_kwEnts text e he).2
  show List.foldl uniqueStep [] (nerEntsOf ner ++ kwEnts text)
    = List.foldl simpleStep [] (nerEntsOf ner ++ kwEnts text)
  rw [List.foldl_append, List.foldl_append]
  obtain ⟨h1, _⟩ := buildUnique_prefix_eq (nerEntsOf ner) [] hn (by simp)
  rw [show List.foldl uniqueStep [] (nerEntsOf ner) = buildUnique (nerEntsOf ner) [] from rfl, h1]
  exact buildUnique_kw_eq_simple (kwEnts text) _ hk

theorem rawEnts_src_not_node (ner : List NerEnt) (text : String) :
    ∀ e ∈ rawEntsOf ner text, kgNodes.contains e.src = false := by
  intro e he
  rcases List.mem_append.mp he with h | h
  · rw [(mem_nerEntsOf ner e h).1]; decide
  · rw [(mem_kwEnts text e h).1]; decide

theorem any_src_irrelevant (ents : List RawEnt)
    (h : ∀ e ∈ ents, kgNodes.contains e.src = false) :
    (ents.any fun e => kgNodes.contains e.label || kgNodes.contains e.src)
      = ents.any fun e => kgNodes.contains e.label := by
  induction ents with
  | nil => rfl
  | cons e rest ih =>
    simp only [List.any_cons, h e (List.mem_cons_self e rest), Bool.or_false,
      ih (fun x hx => h x (List.mem_cons_of_mem e hx))]

theorem resolve_eq (fired : List String) (ents : List RawEnt)
    (h : ∀ e ∈ ents, kgNodes.contains e.src = false) :
    resolveMainIntent fired ents = resolveMainIntentSpec fired ents := by
  have hany := any_src_irrelevant ents h
  simp only [resolveMainIntent, resolveMainIntentSpec, intentPriority, firstPresent,
    List.any_cons, List.any_nil, Bool.or_false, hany]
  by_cases h1 : "Query_Download" ∈ fired
  · simp [h1]
  by_cases h2 : "Query_Format" ∈ fired
  · simp [h1, h2]
  by_cases h3 : "Query_TimeResolution" ∈ fired
  · simp [h1, h2, h3]
  by_cases h4 : "Query_SpatialResolution" ∈ fired
  · simp [h1, h2, h3, h4]
  by_cases h5 : "Query_Applications" ∈ fired
  · simp [h1, h2, h3, h4, h5]
  by_cases h6 : "Query_Services" ∈ fired
  · simp [h1, h2, h3, h4, h5, h6]
  by_cases h7 : "Query_DataProducts" ∈ fired
  · simp [h1, h2, h3, h4, h5, h6, h7]
  by_cases h8 : "Query_Summarize" ∈ fired
  · simp [h1, h2, h3, h4, h5, h6, h7, h8]
  by_cases h9 : "Query_UseCases" ∈ fired
  · simp [h1, h2, h3, h4, h5, h6, h7, h8, h9]
  by_cases h10 : "Query_Details" ∈ fired
  · simp [h1, h2, h3, h4, h5, h6, h7, h8, h9, h10]
  by_cases h11 : "Query_Details_Object" ∈ fired
  · simp [h1, h2, h3, h4, h5, h6, h7, h8, h9, h10, h11]
  simp [h1, h2, h3, h4, h5, h6, h7, h8, h9, h10, h11]

/-! ## Auxiliary lemmas: the store and the dispatcher -/

theorem get_entity_details_labeled (s : KGStore) (q : String) (l : Option String)
    (h : optTruthy l = true) : get_entity_details s q l = none := by
  unfold get_entity_details
  rw [if_pos h]

theorem findEntityIdx_none_iff (q : String) (l : List KGNode) (k : Nat) :
    findEntityIdx q l k = none ↔ ∀ n ∈ l, nameMatches q n = false := by
  induction l generalizing k with
  | nil => simp [findEntityIdx]
  | cons n rest ih =>
    unfold findEntityIdx
    by_cases hm : nameMatches q n = true
    · rw [if_pos hm]
      simp [hm]
    · rw [if_neg hm]
      simp only [Bool.not_eq_true] at hm
      simp [ih (k + 1), hm]

theorem findEntityIdx_spec (q : String) (l : List KGNode) (k i : Nat)
    (h : findEntityIdx q l k = some i) :
    k ≤ i ∧ (∃ n, l.get? (i - k) = some n ∧ nameMatches q n = true)
      ∧ ∀ j, j < i - k → ∀ m, l.get? j = some m → nameMatches q m = false := by
  induction l generalizing k with
  | nil => exact absurd h (by simp [findEntityIdx])
  | cons n rest ih =>
    unfold findEntityIdx at h
    by_cases hm : nameMatches q n = true
    · rw [if_pos hm] at h
      obtain rfl : k = i := by injection h
      refine ⟨Nat.le_refl k, ⟨n, by simp, hm⟩, ?_⟩
      intro j hj m _
      exact absurd hj (by omega)
    · rw [if_neg hm] at h
      obtain ⟨h1, ⟨n2, h2, h3⟩, h4⟩ := ih (k + 1) h
      have hki : k ≤ i := Nat.le_trans (Nat.le_succ k) h1
      refine ⟨hki, ⟨n2, ?_, h3⟩, ?_⟩
      · have hik : i - k = (i - (k + 1)) + 1 := by omega
        rw [hik, List.get?_cons_succ]
        exact h2
      · intro j hj m hmj
        cases j with
        | zero =>
          simp only [List.get?_cons_zero, Option.some.injEq] at hmj
          rw [← hmj]
          exact Bool.eq_false_iff.mpr hm
        | succ j2 =>
          simp only [List.get?_cons_succ] at hmj
          refine h4 j2 (by omega) m hmj

theorem get_entity_details_unlabeled_none (s : KGStore) (q : String)
    (h : get_entity_details s q none = none) :
    ∀ n ∈ s.nodes, nameMatches q n = false := by
  unfold get_entity_details at h
  rw [if_neg (by simp [optTruthy])] at h
  cases hf : findEntityIdx q s.nodes 0 with
  | none => exact (findEntityIdx_none_iff q s.nodes 0).mp hf
  | some i => rw [hf] at h; exact absurd h (by simp)

theorem get_entity_details_unlabeled_some (s : KGStore) (q : String) (d : EntityDetails)
    (h : get_entity_details s q none = some d) :
    ∃ i n, s.nodes.get? i = some n ∧ nameMatches q n = true
      ∧ (∀ j, j < i → ∀ m, s.nodes.get? j = some m → nameMatches q m = false)
      ∧ d.node = n.props ∧ d.relationships = collectRels s i := by
  unfold get_entity_details at h
  rw [if_neg (by simp [optTruthy])] at h
  cases hf : findEntityIdx q s.nodes 0 with
  | none => rw [hf] at h; exact absurd h (by simp)
  | some i =>
    rw [hf] at h
    obtain ⟨-, ⟨n, h2, h3⟩, h4⟩ := findEntityIdx_spec q s.nodes 0 i hf
    rw [Nat.sub_zero] at h2
    have hd := Option.some.inj h
    have hnode : nodeAt s.nodes i = n := by
      unfold nodeAt
      rw [h2]
      rfl
    refine ⟨i, n, h2, h3, ?_, ?_, ?_⟩
    · intro j hj m hmj
      exact h4 j (by omega) m hmj
    · rw [← hd, hnode]
    · rw [← hd]

theorem call_gemini_llm_raises (p : String) (net : NetOutcome) :
    call_gemini_llm p net = Except.error PyErr.attributeError := rfl

theorem find_primary_label (entities : PyDict) (preferred : List String) (n l : String)
    (h : find_primary_entity entities preferred = some (n, l)) :
    l ∈ preferred ∨ kgNodes.contains l = true := by
  unfold find_primary_entity at h
  split at h
  next l0 hf =>
    split at h
    next n0 hg =>
      have h2 : l0 = l := (Prod.ext_iff.mp (Option.some.inj h)).2
      left
      rw [← h2]
      exact List.mem_of_find?_eq_some hf
    next hg => exact Option.noConfusion h
  next hf =>
    cases he : entities.find? (fun p => kgNodes.contains p.1) with
    | none => rw [he] at h; exact absurd h (by simp)
    | some p =>
      rw [he] at h
      simp only [Option.map_some'] at h
      have h2 : p.1 = l := (Prod.ext_iff.mp (Option.some.inj h)).2
      have hp := List.find?_some he
      right
      rw [← h2]
      exact hp

theorem find_primary_label_truthy (entities : PyDict) (preferred : List String) (n l : String)
    (hsub : ∀ x ∈ preferred, x ∈ kgNodes)
    (h : find_primary_entity entities preferred = some (n, l)) :
    optTruthy (some l) = true := by
  have hmem : l ∈ kgNodes := by
    rcases find_primary_label entities preferred n l h with h1 | h1
    · exact hsub l h1
    · exact List.elem_iff.mp h1
  fin_cases hmem <;> decide

theorem dispatch_unhandled (mem : MemSlot) (store : KGStore) (net : NetOutcome)
    (intent : String) (entities : PyDict) (h : intent ∉ handledIntents) :
    dispatch mem store net intent entities = ⟨Except.ok defaultFallback, mem, 0, 0⟩ := by
  simp only [handledIntents, List.mem_cons, List.not_mem_nil, or_false, not_or] at h
  obtain ⟨h1, h2, h3, h4, h5, h6, h7, h8⟩ := h
  unfold dispatch
  rw [if_neg (by simp [h1]), if_neg (by simp [h2]), if_neg (by simp [h3]),
    if_neg (by simp [h4]), if_neg (by simp [h5]), if_neg (by simp [h6]),
    if_neg (by simp [h7]), if_neg (by simp [h8])]

theorem dispatch_handled (mem : MemSlot) (store : KGStore) (net : NetOutcome)
    (intent : String) (entities : PyDict) (h : intent ∈ handledIntents) :
    ((dispatch mem store net intent entities).mem = mem
        ∧ ∃ e, (dispatch mem store net intent entities).result = Except.error e)
    ∨ ((dispatch mem store net intent entities).mem = MemSlot.mk none none
        ∧ ∃ s2, (dispatch mem store net intent entities).result = Except.ok s2) := by
  simp only [handledIntents, List.mem_cons, List.not_mem_nil, or_false] at h
  rcases h with rfl | rfl | rfl | rfl | rfl | rfl | rfl | rfl
  · -- get_details
    unfold dispatch
    simp only [String.reduceBEq, Bool.false_eq_true, if_false, if_true]
    split
    next pname plabel hfp =>
      split
      next ht =>
        split
        next d hge =>
          rw [get_entity_details_labeled store pname (some plabel)
            (find_primary_label_truthy entities _ pname plabel (by decide) hfp)] at hge
          exact Option.noConfusion hge
        next hge => right; exact ⟨rfl, _, rfl⟩
      next ht => right; exact ⟨rfl, _, rfl⟩
    next hfp => right; exact ⟨rfl, _, rfl⟩
  · -- list_data_products
    unfold dispatch
    simp only [String.reduceBEq, Bool.false_eq_true, if_false, if_true]
    split
    next => right; exact ⟨rfl, _, rfl⟩
    next => right; exact ⟨rfl, _, rfl⟩
  · -- get_data_format
    unfold dispatch
    simp only [String.reduceBEq, Bool.false_eq_true, if_false, if_true]
    split
    next pname plabel hfp =>
      split
      next ht =>
        split
        next hempty => right; exact ⟨rfl, _, rfl⟩
        next hempty =>
          split
          next e hj => left; exact ⟨rfl, e, rfl⟩
          next names hj => right; exact ⟨rfl, _, rfl⟩
      next ht => right; exact ⟨rfl, _, rfl⟩
    next hfp => right; exact ⟨rfl, _, rfl⟩
  · -- get_download_info
    unfold dispatch
    simp only [String.reduceBEq, Bool.false_eq_true, if_false, if_true]
    split
    next pname plabel hfp =>
      split
      next ht =>
        split
        next d hge =>
          rw [get_entity_details_labeled store pname (some plabel)
            (find_primary_label_truthy entities _ pname plabel (by decide) hfp)] at hge
          exact Option.noConfusion hge
        next hge => right; exact ⟨rfl, _, rfl⟩
      next ht => right; exact ⟨rfl, _, rfl⟩
    next hfp => right; exact ⟨rfl, _, rfl⟩
  · -- get_applications
    unfold dispatch
    simp only [String.reduceBEq, Bool.false_eq_true, if_false, if_true]
    split
    next pname plabel hfp =>
      split
      next ht =>
        split
        next hempty => right; exact ⟨rfl, _, rfl⟩
        next hempty =>
          split
          next e hj => left; exact ⟨rfl, e, rfl⟩
          next names hj => right; exact ⟨rfl, _, rfl⟩
      next ht => right; exact ⟨rfl, _, rfl⟩
    next hfp => right; exact ⟨rfl, _, rfl⟩
  · -- get_services
    unfold dispatch
    simp only [String.reduceBEq, Bool.false_eq_true, if_false, if_true]
    split
    next => right; exact ⟨rfl, _, rfl⟩
    next =>
      split
      next e hj => left; exact ⟨rfl, e, rfl⟩
      next names hj => right; exact ⟨rfl, _, rfl⟩
  · -- summarize_info
    unfold dispatch
    simp only [String.reduceBEq, Bool.false_eq_true, if_false, if_true]
    split
    next hc =>
      rw [call_gemini_llm_raises]
      left; exact ⟨rfl, _, rfl⟩
    next hc => right; exact ⟨rfl, _, rfl⟩
  · -- generate_use_cases
    unfold dispatch
    simp only [String.reduceBEq, Bool.false_eq_true, if_false, if_true]
    split
    next pname plabel hfp =>
      split
      next ht =>
        rw [call_gemini_llm_raises]
        left; exact ⟨rfl, _, rfl⟩
      next ht => right; exact ⟨rfl, _, rfl⟩
    next hfp => right; exact ⟨rfl, _, rfl⟩

/-! ## Claim theorems -/

/-- C1 (code bug in the source): the claim says _call_gemini_llm always
returns a plain apology string and never raises to the Dialogue Engine.
The apology handlers do exist, but `chat_history.push` runs before the
try-block and Python lists have no `push` method, so every call raises
AttributeError regardless of the prompt and of how the HTTP exchange
would have gone: this theorem evaluates the client on every prompt and
every network outcome. -/
theorem C1_gemini_always_raises (prompt : String) (net : NetOutcome) :
    call_gemini_llm prompt net = Except.error PyErr.attributeError := rfl

/-- C2 counterexample: on input "" the intent is general_query (not
get_details), yet the memory slot is not cleared — generate_response has
no branch for that intent and leaves the slot untouched, contradicting
"cleared for every other intent". -/
theorem C2_counterexample :
    (process_query [] "").main_intent ≠ "get_details"
    ∧ (generate_response ⟨some "old description", some "Old Entity"⟩ ⟨[], []⟩ []
        NetOutcome.netFail "").mem ≠ MemSlot.mk none none :=
  ⟨by decide, by decide⟩

/-- C2 (amended): for each handled intent the slot is overwritten when
generate_response returns normally (set on a get_details success with a
non-empty description — a branch the labelled-lookup failure makes
unreachable — cleared on every other handled path), and left unchanged
when the branch raises; for intents with no dispatch branch
(general_query, get_time_resolution, get_spatial_resolution) the slot is
left unchanged and the static fallback is returned. -/
theorem C2_memory_slot (mem : MemSlot) (store : KGStore) (ner : List NerEnt)
    (net : NetOutcome) (text : String) :
    ((process_query ner text).main_intent ∈ handledIntents →
      (((generate_response mem store ner net text).mem = mem
          ∧ ∃ e, (generate_response mem store ner net text).result = Except.error e)
        ∨ ((generate_response mem store ner net text).mem = MemSlot.mk none none
          ∧ ∃ s2, (generate_response mem store ner net text).result = Except.ok s2)))
    ∧ ((process_query ner text).main_intent ∉ handledIntents →
      (generate_response mem store ner net text).mem = mem
        ∧ (generate_response mem store ner net text).result = Except.ok defaultFallback) := by
  constructor
  · intro h
    exact dispatch_handled mem store net (process_query ner text).main_intent
      (process_query ner text).entities h
  · intro h
    have hd := dispatch_unhandled mem store net (process_query ner text).main_intent
      (process_query ner text).entities h
    constructor
    · show (dispatch mem store net (process_query ner text).main_intent
        (process_query ner text).entities).mem = mem
      rw [hd]
    · show (dispatch mem store net (process_query ner text).main_intent
        (process_query ner text).entities).result = Except.ok defaultFallback
      rw [hd]

/-- Witness for C2_memory_slot at the handled input "what data". -/
theorem C2_memory_slot_witness :
    ((process_query [] "what data").main_intent ∈ handledIntents)
    ∧ (((generate_response ⟨some "c", some "n"⟩ ⟨[], []⟩ [] NetOutcome.netFail "what data").mem
          = ⟨some "c", some "n"⟩
        ∧ ∃ e, (generate_response ⟨some "c", some "n"⟩ ⟨[], []⟩ [] NetOutcome.netFail
            "what data").result = Except.error e)
      ∨ ((generate_response ⟨some "c", some "n"⟩ ⟨[], []⟩ [] NetOutcome.netFail "what data").mem
          = MemSlot.mk none none
        ∧ ∃ s2, (generate_response ⟨some "c", some "n"⟩ ⟨[], []⟩ [] NetOutcome.netFail
            "what data").result = Except.ok s2)) :=
  ⟨by decide,
   (C2_memory_slot ⟨some "c", some "n"⟩ ⟨[], []⟩ [] NetOutcome.netFail "what data").1 (by decide)⟩

/-- C3 (code bug in the source): with content in the memory slot, a
"summarize that" request reaches _call_gemini_llm, which raises
AttributeError at `chat_history.push` before any HTTP request, so
generate_response propagates the exception instead of returning the
fixed connectivity-apology string, and the slot is NOT cleared (the
clearing lines are never reached); the second conjunct records that the
try-block, had it been reached, would indeed map a timeout to exactly
the connectivity apology. -/
theorem C3_summarize_push_bug :
    generate_response ⟨some "Global daily sea surface temperature anomaly data.",
        some "Sea Surface Temperature"⟩ ⟨[], []⟩ [] NetOutcome.netFail "summarize that"
      = ⟨Except.error PyErr.attributeError,
         ⟨some "Global daily sea surface temperature anomaly data.",
          some "Sea Surface Temperature"⟩, 0, 1⟩
    ∧ gemini_try NetOutcome.netFail = connectivityApology := ⟨rfl, rfl⟩

/-- C4 counterexample: on "generate use cases for rainfall data" with an
empty store, the augmentation client IS called (once), and the response
is not the "please specify" fallback — the keyword table supplies the
DataProduct entity "rainfall data" independently of the store. -/
theorem C4_counterexample :
    (generate_response ⟨none, none⟩ ⟨[], []⟩ [] NetOutcome.netFail
        "generate use cases for rainfall data").llmCalls = 1
    ∧ (generate_response ⟨none, none⟩ ⟨[], []⟩ [] NetOutcome.netFail
        "generate use cases for rainfall data").result
      ≠ Except.ok "Please specify which data product, satellite, or parameter you'd like use case ideas for." :=
  ⟨rfl, by decide⟩

theorem dispatch_use_cases_called (mem : MemSlot) (store : KGStore) (net : NetOutcome)
    (entities : PyDict) (pname plabel : String)
    (hfp : find_primary_entity entities
      ["DataProduct", "Satellite", "Parameter", "ApplicationArea"] = some (pname, plabel))
    (ht : strTruthy pname = true) :
    dispatch mem store net "generate_use_cases" entities
      = ⟨Except.error PyErr.attributeError, mem, 1, 1⟩ := by
  unfold dispatch
  simp only [String.reduceBEq, Bool.false_eq_true, if_false, if_true]
  split
  next pname2 plabel2 hfp2 =>
    rw [hfp] at hfp2
    have h3 := Option.some.inj hfp2
    have e1 : pname = pname2 := congrArg Prod.fst h3
    have e2 : plabel = plabel2 := congrArg Prod.snd h3
    subst e1
    subst e2
    rw [if_pos ht, call_gemini_llm_raises]
  next hfp2 => rw [hfp] at hfp2; exact Option.noConfusion hfp2

/-- C4 (amended): for every store (in particular one with no matching
entity), the input "generate use cases for rainfall data" extracts the
DataProduct "rainfall data" from the static keyword table, so the
use-case branch runs: it queries the store once and then invokes the
augmentation client (which raises, by the push bug); the "please
specify" fallback happens only when no entity is extracted from the
text. -/
theorem C4_use_case_branch (mem : MemSlot) (store : KGStore) (net : NetOutcome) :
    generate_response mem store [] net "generate use cases for rainfall data"
      = ⟨Except.error PyErr.attributeError, mem, 1, 1⟩ := by
  show dispatch mem store net "generate_use_cases"
      [("DataProduct", "rainfall data"), ("Parameter", "rainfall")] = _
  exact dispatch_use_cases_called mem store net _ "rainfall data" "DataProduct"
    (by decide) (by decide)

/-- C5 counterexample: the store holds a DataProduct "Rainfall Data"
whose name contains the query "rainfall", and the label passed even
matches, yet get_entity_details returns None — the labelled query text
contains the literal `{label}` placeholder and the store rejects it, so
the claim "returns None only when no entity name contains the query
string" is false. -/
theorem C5_counterexample :
    get_entity_details rainfallStore "rainfall" (some "DataProduct") = none
    ∧ (⟨"DataProduct",
        [("name", "Rainfall Data"),
         ("description", "Gridded rainfall data derived from INSAT satellites.")]⟩ : KGNode)
      ∈ rainfallStore.nodes
    ∧ nameMatches "rainfall" ⟨"DataProduct",
        [("name", "Rainfall Data"),
         ("description", "Gridded rainfall data derived from INSAT satellites.")]⟩ = true :=
  ⟨rfl, by decide, rfl⟩

/-- C5 (amended): with a truthy label argument get_entity_details always
returns None (the broken `{label}` query); without a label it returns
None exactly when no node name contains the query case-insensitively,
and otherwise returns the first matching node (in store order) with its
properties and the collected incident-relationship records. -/
theorem C5_entity_lookup (s : KGStore) (q : String) (l : Option String) :
    (optTruthy l = true → get_entity_details s q l = none)
    ∧ (get_entity_details s q none = none → ∀ n ∈ s.nodes, nameMatches q n = false)
    ∧ (∀ d, get_entity_details s q none = some d →
        ∃ i n, s.nodes.get? i = some n ∧ nameMatches q n = true
          ∧ (∀ j, j < i → ∀ m, s.nodes.get? j = some m → nameMatches q m = false)
          ∧ d.node = n.props ∧ d.relationships = collectRels s i) :=
  ⟨get_entity_details_labeled s q l,
   get_entity_details_unlabeled_none s q,
   fun d hd => get_entity_details_unlabeled_some s q d hd⟩

/-- Witness for C5_entity_lookup: the labelled variant on a concrete
store and query. -/
theorem C5_entity_lookup_witness :
    optTruthy (some "DataProduct") = true
    ∧ get_entity_details rainfallStore "RAIN" (some "DataProduct") = none :=
  ⟨by decide, (C5_entity_lookup rainfallStore "RAIN" (some "DataProduct")).1 (by decide)⟩

/-- C6: main_intent equals the spec-side resolver (first fired signal in
the fixed priority order, else general_query upgraded to get_details
exactly when some extracted entity label is a known entity kind), and in
particular Scenario D resolves to list_data_products whatever the NER
returns. -/
theorem C6_intent_priority :
    (∀ (ner : List NerEnt) (text : String),
      (process_query ner text).main_intent
        = resolveMainIntentSpec (firedIntents text) (rawEntsOf ner text))
    ∧ (∀ ner : List NerEnt,
      (process_query ner "What data products does MOSDAC provide?").main_intent
        = "list_data_products") := by
  constructor
  · intro ner text
    show resolveMainIntent (firedIntents text) (rawEntsOf ner text) = _
    exact resolve_eq _ _ (rawEnts_src_not_node ner text)
  · intro ner
    rfl

/-- C7 counterexample: two NER spans where an already-mapped value
("isro", under ORG) is a substring of the later candidate's text
("isro centre"): the claim says the later candidate is dropped, but the
code adds it (the anti-overlap test also requires the existing label to
be a known entity kind, which NER labels never are). -/
theorem C7_counterexample :
    (process_query [⟨"isro", "ORG"⟩, ⟨"isro centre", "GPE"⟩] "isro and isro centre").entities
      = [("ORG", "isro"), ("GPE", "isro centre")]
    ∧ isSubstrOf "isro" "isro centre" = true := ⟨rfl, rfl⟩

/-- C7 (amended): the entities mapping has at most one name per label
(no duplicate keys); for a known entity-kind label the mapped name is
the last-scanned keyword hit with that label; and the anti-overlap test
never fires (the built mapping equals the one built without it), because
a mapped value under a known entity-kind label can only come from
keyword hits, which are processed after every NER candidate. -/
theorem C7_entities_dedup (ner : List NerEnt) (text : String) :
    (((process_query ner text).entities.map Prod.fst).Nodup)
    ∧ (∀ l, l ∈ kgNodes →
        dictGet (process_query ner text).entities l = lastWith (kwEnts text) l)
    ∧ (process_query ner text).entities = buildUniqueSimple (rawEntsOf ner text) [] := by
  refine ⟨?_, ?_, ?_⟩
  · exact nodup_keys_buildUnique (rawEntsOf ner text) [] (by simp)
  · intro l hl
    have hlc : kgNodes.contains l = true := List.elem_iff.mpr hl
    show dictGet (buildUnique (rawEntsOf ner text) []) l = _
    have hsplit : buildUnique (rawEntsOf ner text) []
        = buildUnique (kwEnts text) (buildUnique (nerEntsOf ner) []) := by
      show List.foldl uniqueStep [] (nerEntsOf ner ++ kwEnts text) = _
      rw [List.foldl_append]
      rfl
    rw [hsplit,
      dictGet_buildUnique_kw (kwEnts text) _ l (fun e he => (mem_kwEnts text e he).2),
      dictGet_buildUnique_notNode (nerEntsOf ner) [] l hlc
        (fun e he => ner_label_not_node e.label (mem_nerEntsOf ner e he).2)]
    cases lastWith (kwEnts text) l <;> rfl
  · exact buildUnique_eq_simple ner text

/-- Witness for C7_entities_dedup: on a concrete utterance the
DataProduct slot holds the last-scanned DataProduct keyword. -/
theorem C7_entities_dedup_witness :
    "DataProduct" ∈ kgNodes
    ∧ dictGet (process_query [] "tell me about rainfall and rainfall data").entities "DataProduct"
      = lastWith (kwEnts "tell me about rainfall and rainfall data") "DataProduct"
    ∧ lastWith (kwEnts "tell me about rainfall and rainfall data") "DataProduct"
      = some "rainfall data" :=
  ⟨by decide,
   (C7_entities_dedup [] "tell me about rainfall and rainfall data").2.1 "DataProduct" (by decide),
   by decide⟩

/-- C8: an utterance with no keyword-table hit and no retained NER span
resolves to general_query with an empty entities mapping. -/
theorem C8_no_match_general_query (ner : List NerEnt) (text : String)
    (hkw : ∀ p ∈ mosdac_keywords, isSubstrOf p.1 (pyLower text) = false)
    (hner : nerEntsOf ner = []) :
    (process_query ner text).main_intent = "general_query"
    ∧ (process_query ner text).entities = [] := by
  have hhits : kwHits text = [] := by
    rw [show kwHits text = mosdac_keywords.filter (fun p => isSubstrOf p.1 (pyLower text)) from rfl,
      List.filter_eq_nil_iff]
    intro p hp
    rw [hkw p hp]
    simp
  have hfired : firedIntents text = [] := by
    unfold firedIntents
    rw [hhits]
    rfl
  have hkwents : kwEnts text = [] := by
    unfold kwEnts
    rw [hhits]
    rfl
  have hraw : rawEntsOf ner text = [] := by
    unfold rawEntsOf
    rw [hner, hkwents]
    rfl
  constructor
  · show resolveMainIntent (firedIntents text) (rawEntsOf ner text) = _
    rw [hfired, hraw]
    rfl
  · show buildUnique (rawEntsOf ner text) [] = []
    rw [hraw]
    rfl

/-- Witness for C8_no_match_general_query at the empty utterance. -/
theorem C8_witness :
    (∀ p ∈ mosdac_keywords, isSubstrOf p.1 (pyLower "") = false)
    ∧ nerEntsOf ([] : List NerEnt) = []
    ∧ (process_query [] "").main_intent = "general_query"
    ∧ (process_query [] "").entities = [] :=
  ⟨by decide, rfl,
   (C8_no_match_general_query [] "" (by decide) rfl).1,
   (C8_no_match_general_query [] "" (by decide) rfl).2⟩

/-- C9: when the extractor resolves get_time_resolution or
get_spatial_resolution, generate_response has no branch for it: it
returns the static fallback, issues no store or augmentation call, and
leaves the memory slot unchanged. -/
theorem C9_resolution_intents_fallback (mem : MemSlot) (store : KGStore)
    (ner : List NerEnt) (net : NetOutcome) (text : String)
    (h : (process_query ner text).main_intent = "get_time_resolution"
      ∨ (process_query ner text).main_intent = "get_spatial_resolution") :
    generate_response mem store ner net text = ⟨Except.ok defaultFallback, mem, 0, 0⟩ := by
  have hnot : (process_query ner text).main_intent ∉ handledIntents := by
    rcases h with h | h <;> rw [h] <;> decide
  exact dispatch_unhandled mem store net (process_query ner text).main_intent
    (process_query ner text).entities hnot

/-- Witness for C9_resolution_intents_fallback on "time resolution". -/
theorem C9_witness :
    ((process_query [] "time resolution").main_intent = "get_time_resolution"
      ∨ (process_query [] "time resolution").main_intent = "get_spatial_resolution")
    ∧ generate_response ⟨some "c", some "n"⟩ ⟨[], []⟩ [] NetOutcome.netFail "time resolution"
      = ⟨Except.ok defaultFallback, ⟨some "c", some "n"⟩, 0, 0⟩ :=
  ⟨Or.inl (by decide),
   C9_resolution_intents_fallback ⟨some "c", some "n"⟩ ⟨[], []⟩ [] NetOutcome.netFail
     "time resolution" (Or.inl (by decide))⟩

/-- C10: the keywords field of the extraction result is always empty —
every non-"Query_"-prefixed label in the static keyword table is a known
entity kind, so the unclassified-keyword branch can never fire. -/
theorem C10_keywords_empty (ner : List NerEnt) (text : String) :
    (process_query ner text).keywords = [] := by
  show nluKeywords text = []
  unfold nluKeywords
  rw [List.map_eq_nil_iff, List.filter_eq_nil_iff]
  intro p hp
  have hp2 : p ∈ mosdac_keywords := List.mem_of_mem_filter hp
  have hall : ∀ q ∈ mosdac_keywords,
      strStartsWith q.2 "Query_" = true ∨ kgNodes.contains q.2 = true := by decide
  rcases hall p hp2 with h1 | h1
  · simp [h1]
  · simp [h1, List.elem_iff.mp h1]
